import Mathlib

/-!
Verification of the request-to-result pipeline of the Study-Helper
application (`src/app.py`) against its specification.

The pipeline fragments are embedded shallowly:
* Python `str.split()` (split on runs of whitespace, dropping empty
  tokens) becomes `pySplitL` / `pySplit`;
* Python `sep.join(...)` becomes `joinSepL` / `joinSep`;
* `truncate_text`, `get_first_words`, the quiz-question comprehension,
  the keyword filter, the per-tab button handlers and the download
  renderers are translated function by function;
* the `st.cache_resource` memoization of the model loaders is modelled
  as an explicit per-key cache cell driven by a list of load outcomes;
* the Streamlit session state (`summary` / `quiz` / `translation` /
  `keywords`) becomes the `Store` structure, and each button handler is
  a function from the store (plus the externally supplied inference
  outcome) to a new store.
-/

/-- Whitespace test used by Python `str.split()` / `str.strip()`
(ASCII whitespace: space, tab, newline, carriage return, vertical tab,
form feed). -/
def isSpace (c : Char) : Bool :=
  c = ' ' || c = '\t' || c = '\n' || c = '\r' || c = '\x0b' || c = '\x0c'

/-- Worker for `pySplitL`: `acc` holds the characters of the word
currently being read, in reverse order. -/
def splitAux (acc : List Char) : List Char → List (List Char)
  | [] => if acc = [] then [] else [acc.reverse]
  | c :: cs =>
      if isSpace c then
        if acc = [] then splitAux [] cs
        else acc.reverse :: splitAux [] cs
      else splitAux (c :: acc) cs

/-- Python `str.split()` with no separator on a character list: splits on
runs of whitespace and never produces empty tokens. -/
def pySplitL (l : List Char) : List (List Char) :=
  splitAux [] l

/-- Python `text.split()` on strings. -/
def pySplit (s : String) : List String :=
  (pySplitL s.data).map fun w => String.mk w

/-- Python `sep.join(ws)` on character lists. -/
def joinSepL (sep : List Char) : List (List Char) → List Char
  | [] => []
  | [w] => w
  | w :: ws => w ++ sep ++ joinSepL sep ws

/-- Python `sep.join(ws)` on strings. -/
def joinSep (sep : String) : List String → String
  | [] => ""
  | [w] => w
  | w :: ws => w ++ sep ++ joinSep sep ws

/-- Python `' '.join(ws)`. -/
def pyJoinWords (ws : List String) : String :=
  String.mk (joinSepL [' '] (ws.map String.data))

/-- Python `text.strip()`: removes leading and trailing whitespace. -/
def pyStrip (s : String) : String :=
  String.mk (((s.data.dropWhile isSpace).reverse.dropWhile isSpace).reverse)

/-- `truncate_text` (src/app.py:147-150):
`words = text.split(); return (" ".join(words[:max_words]), len(words) > max_words)`. -/
def truncate_text (text : String) (maxWords : Nat) : String × Bool :=
  let words := pySplit text
  (pyJoinWords (words.take maxWords), decide (words.length > maxWords))

-- ### Lemmas about the whitespace split

theorem splitAux_nonspace_run (w : List Char) (hw : ∀ c ∈ w, isSpace c = false) :
    ∀ acc t, splitAux acc (w ++ t) = splitAux (w.reverse ++ acc) t := by
  induction w with
  | nil => intro acc t; simp
  | cons c w ih =>
      intro acc t
      have hc : isSpace c = false := hw c (List.mem_cons_self c w)
      have hw' : ∀ d ∈ w, isSpace d = false := fun d hd => hw d (List.mem_cons_of_mem c hd)
      rw [List.cons_append]
      rw [show splitAux acc (c :: (w ++ t)) = splitAux (c :: acc) (w ++ t) by
        simp [splitAux, hc]]
      rw [ih hw' (c :: acc) t]
      simp

theorem splitAux_space (c : Char) (hc : isSpace c = true) (acc : List Char)
    (hacc : acc ≠ []) (t : List Char) :
    splitAux acc (c :: t) = acc.reverse :: splitAux [] t := by
  simp [splitAux, hc, hacc]

/-- Splitting recovers the words: if every word is nonempty and free of
whitespace, splitting the space-joined list gives back the words. -/
theorem pySplitL_joinSepL (ws : List (List Char))
    (h : ∀ w ∈ ws, w ≠ [] ∧ ∀ c ∈ w, isSpace c = false) :
    pySplitL (joinSepL [' '] ws) = ws := by
  induction ws with
  | nil => rfl
  | cons w ws ih =>
      have hw := h w (List.mem_cons_self w ws)
      have h' : ∀ v ∈ ws, v ≠ [] ∧ ∀ c ∈ v, isSpace c = false :=
        fun v hv => h v (List.mem_cons_of_mem w hv)
      cases ws with
      | nil =>
          show splitAux [] (joinSepL [' '] [w]) = [w]
          have : joinSepL [' '] [w] = w ++ [] := by simp [joinSepL]
          rw [this, splitAux_nonspace_run w hw.2 [] []]
          simp [splitAux, hw.1]
      | cons v vs =>
          show splitAux [] (joinSepL [' '] (w :: v :: vs)) = w :: v :: vs
          have hj : joinSepL [' '] (w :: v :: vs)
              = w ++ (' ' :: joinSepL [' '] (v :: vs)) := by
            simp [joinSepL]
          rw [hj, splitAux_nonspace_run w hw.2 [] _]
          rw [splitAux_space ' ' (by simp [isSpace]) (w.reverse ++ [])
            (by simp [hw.1]) _]
          simp only [List.append_nil, List.reverse_reverse]
          exact congrArg (w :: ·) (ih h')

/-- Every token produced by `splitAux` is nonempty and whitespace-free,
provided the running accumulator is whitespace-free. -/
theorem splitAux_tokens_wf :
    ∀ (l acc : List Char), (∀ c ∈ acc, isSpace c = false) →
      ∀ w ∈ splitAux acc l, w ≠ [] ∧ ∀ c ∈ w, isSpace c = false := by
  intro l
  induction l with
  | nil =>
      intro acc hacc w hwmem
      by_cases h : acc = []
      · simp [splitAux, h] at hwmem
      · simp [splitAux, h] at hwmem
        subst hwmem
        refine ⟨by simpa using h, ?_⟩
        intro c hc
        exact hacc c (by simpa using hc)
  | cons c cs ih =>
      intro acc hacc w hwmem
      by_cases hc : isSpace c = true
      · by_cases h : acc = []
        · rw [show splitAux acc (c :: cs) = splitAux [] cs by
            simp [splitAux, hc, h]] at hwmem
          exact ih [] (by simp) w hwmem
        · rw [splitAux_space c hc acc h cs] at hwmem
          rcases List.mem_cons.mp hwmem with h1 | h1
          · subst h1
            refine ⟨by simpa using h, ?_⟩
            intro d hd
            exact hacc d (by simpa using hd)
          · exact ih [] (by simp) w h1
      · rw [show splitAux acc (c :: cs) = splitAux (c :: acc) cs by
          simp [splitAux, hc]] at hwmem
        refine ih (c :: acc) ?_ w hwmem
        intro d hd
        rcases List.mem_cons.mp hd with h1 | h1
        · subst h1; simpa using hc
        · exact hacc d h1

theorem pySplitL_tokens_wf (l : List Char) :
    ∀ w ∈ pySplitL l, w ≠ [] ∧ ∀ c ∈ w, isSpace c = false :=
  splitAux_tokens_wf l [] (by simp)

theorem pySplitL_all_space (l : List Char) (h : ∀ c ∈ l, isSpace c = true) :
    pySplitL l = [] := by
  induction l with
  | nil => rfl
  | cons c cs ih =>
      have hc : isSpace c = true := h c (List.mem_cons_self c cs)
      show splitAux [] (c :: cs) = []
      simp only [splitAux, hc, if_true, if_pos rfl]
      exact ih fun d hd => h d (List.mem_cons_of_mem c hd)

/-- Splitting the space-rejoined first `N` tokens of a string recovers
exactly those tokens. -/
theorem pySplit_join_take (text : String) (N : Nat) :
    pySplit (pyJoinWords ((pySplit text).take N)) = (pySplit text).take N := by
  have hmapmap :
      (((pySplitL text.data).map fun w => String.mk w).take N).map String.data
        = (pySplitL text.data).take N := by
    rw [← List.map_take, List.map_map]
    have hid : (String.data ∘ fun w : List Char => String.mk w) = id := rfl
    rw [hid, List.map_id]
  unfold pySplit pyJoinWords
  simp only [String.data]
  rw [hmapmap]
  rw [pySplitL_joinSepL ((pySplitL text.data).take N) ?_]
  · rw [← List.map_take]
  · intro w hw
    exact pySplitL_tokens_wf text.data w (List.take_subset N _ hw)

/-- Splitting the output of `truncate_text` recovers exactly the first
`N` tokens of the input. -/
theorem pySplit_truncate (text : String) (N : Nat) :
    pySplit (truncate_text text N).1 = (pySplit text).take N :=
  pySplit_join_take text N

/-- C1: `truncate_text(text, N)` keeps exactly the first `N`
whitespace-delimited tokens (re-joined by single spaces), its flag is
`true` iff the original word count exceeds `N`, all-whitespace input
gives `("", false)`, and the output never holds more than `N` words. -/
theorem C1_truncate_text_correct (text : String) (N : Nat) :
    pySplit (truncate_text text N).1 = (pySplit text).take N ∧
    ((truncate_text text N).2 = true ↔ N < (pySplit text).length) ∧
    ((∀ c ∈ text.data, isSpace c = true) → truncate_text text N = ("", false)) ∧
    (pySplit (truncate_text text N).1).length ≤ N := by
  refine ⟨pySplit_truncate text N, ?_, ?_, ?_⟩
  · show decide ((pySplit text).length > N) = true ↔ N < (pySplit text).length
    exact decide_eq_true_iff
  · intro hsp
    have hnil : pySplitL text.data = [] := pySplitL_all_space text.data hsp
    show (pyJoinWords ((pySplit text).take N),
        decide ((pySplit text).length > N)) = ("", false)
    have hps : pySplit text = [] := by simp [pySplit, hnil]
    rw [hps]
    simp [pyJoinWords, joinSepL]
  · rw [pySplit_truncate text N, List.length_take]
    exact min_le_left _ _

/-- Witness for C1 at a concrete all-whitespace input. -/
theorem C1_truncate_text_correct_witness : truncate_text " " 3 = ("", false) :=
  (C1_truncate_text_correct " " 3).2.2.1 (by decide)

-- ### Quiz Prompt Builder (src/app.py:615-649)

/-- `get_first_words` (src/app.py:626-631):
`words = text.split(); if len(words) <= max_words: return text;
return ' '.join(words[:max_words])`. -/
def get_first_words (text : String) (maxWords : Nat) : String :=
  let words := pySplit text
  if words.length ≤ maxWords then text
  else pyJoinWords (words.take maxWords)

/-- The quiz question template
(`f"What is the main concept in: '{get_first_words(s, 12)}'?"`,
src/app.py:633). -/
def questionOf (s : String) : String :=
  "What is the main concept in: \x27" ++ get_first_words s 12 ++ "\x27?"

/-- The quiz list comprehension applied to the sentence-tokenizer output
(src/app.py:622 and 633): the code first takes the first 5 sentences,
then keeps those of length > 10, then formats each. -/
def quizPrompts (sentences : List String) : List String :=
  ((sentences.take 5).filter fun s => decide (10 < s.length)).map questionOf

/-- Modelled from the claim's words, for comparison with `quizPrompts`:
one prompt for each of the first up-to-5 sentences whose length exceeds
10 characters (filter first, then cap at 5). -/
def quizPromptsClaim (sentences : List String) : List String :=
  ((sentences.filter fun s => decide (10 < s.length)).take 5).map questionOf

/-- C6: every quiz prompt is the fixed template around
`get_first_words s 12`, which is the whole sentence when it has at most
12 words and the first 12 words re-joined by single spaces otherwise,
and in either case holds at most 12 words. -/
theorem C6_question_template (s : String) :
    questionOf s
      = "What is the main concept in: \x27" ++ get_first_words s 12 ++ "\x27?" ∧
    (pySplit (get_first_words s 12)).length ≤ 12 ∧
    ((pySplit s).length ≤ 12 → get_first_words s 12 = s) ∧
    (12 < (pySplit s).length →
      get_first_words s 12 = pyJoinWords ((pySplit s).take 12)) := by
  refine ⟨rfl, ?_, ?_, ?_⟩
  · by_cases h : (pySplit s).length ≤ 12
    · rw [show get_first_words s 12 = s from if_pos h]
      exact h
    · rw [show get_first_words s 12 = pyJoinWords ((pySplit s).take 12) from if_neg h]
      rw [pySplit_join_take s 12, List.length_take]
      exact min_le_left _ _
  · intro h
    exact if_pos h
  · intro h
    exact if_neg (by omega)

/-- Witness for C6 at a concrete two-word sentence. -/
theorem C6_question_template_witness :
    (pySplit (get_first_words "a b" 12)).length ≤ 12 ∧
    get_first_words "a b" 12 = "a b" :=
  ⟨(C6_question_template "a b").2.1, (C6_question_template "a b").2.2.1 (by decide)⟩

/-- A six-sentence tokenizer output whose first sentence has length ≤ 10
while the remaining five are longer. -/
def quizCexSentences : List String :=
  ["Tiny one.",
   "The first long sentence here.",
   "The second long sentence here.",
   "The third long sentence here.",
   "The fourth long sentence here.",
   "The fifth long sentence here."]

/-- C2 counterexample: the code takes the first 5 tokenized sentences and
only then filters by length > 10, so a short first sentence costs a
prompt; the claim's filter-then-take reading predicts 5 prompts where the
code produces 4. -/
theorem C2_counterexample :
    (quizPrompts quizCexSentences).length = 4 ∧
    (quizPromptsClaim quizCexSentences).length = 5 ∧
    quizPrompts quizCexSentences ≠ quizPromptsClaim quizCexSentences := by
  refine ⟨by decide, by decide, ?_⟩
  intro h
  have h4 : (quizPrompts quizCexSentences).length = 4 := by decide
  have h5 : (quizPromptsClaim quizCexSentences).length = 5 := by decide
  rw [h, h5] at h4
  exact absurd h4 (by decide)

/-- C2 amended: the builder filters by length > 10 only among the first 5
tokenized sentences; it never returns more than 5 prompts, and when the
first 5 sentences all have length > 10 (in particular whenever the text
yields 5 or more sentences, all of length > 10) it returns exactly one
prompt per each of the first 5 sentences. -/
theorem C2_quiz_prompt_count (sentences : List String) :
    (quizPrompts sentences).length ≤ 5 ∧
    ((∀ s ∈ sentences.take 5, 10 < s.length) →
      quizPrompts sentences = (sentences.take 5).map questionOf) ∧
    (5 ≤ sentences.length → (∀ s ∈ sentences.take 5, 10 < s.length) →
      (quizPrompts sentences).length = 5) := by
  have hfull : (∀ s ∈ sentences.take 5, 10 < s.length) →
      quizPrompts sentences = (sentences.take 5).map questionOf := by
    intro h
    unfold quizPrompts
    rw [List.filter_eq_self.mpr fun s hs => decide_eq_true (h s hs)]
  refine ⟨?_, hfull, ?_⟩
  · unfold quizPrompts
    rw [List.length_map]
    calc ((sentences.take 5).filter fun s => decide (10 < s.length)).length
        ≤ (sentences.take 5).length := List.length_filter_le _ _
      _ ≤ 5 := by rw [List.length_take]; exact min_le_left _ _
  · intro hlen h
    rw [hfull h, List.length_map, List.length_take]
    omega

/-- Witness for C2's amended statement: five long sentences give exactly
five prompts. -/
theorem C2_quiz_prompt_count_witness :
    (quizPrompts
      ["The first long sentence here.",
       "The second long sentence here.",
       "The third long sentence here.",
       "The fourth long sentence here.",
       "The fifth long sentence here."]).length = 5 :=
  (C2_quiz_prompt_count
    ["The first long sentence here.",
     "The second long sentence here.",
     "The third long sentence here.",
     "The fourth long sentence here.",
     "The fifth long sentence here."]).2.2 (by decide) (by decide)

-- ### Keyword Selector (src/app.py:736)

/-- The keyword comprehension (src/app.py:736):
`[lbl for lbl, score in zip(result['labels'], result['scores'])
if score > 0.3][:5]`, with the classifier's label/score lists already
zipped into pairs. -/
def keywordSelect (pairs : List (String × ℚ)) : List String :=
  ((pairs.filter fun p => decide ((0.3 : ℚ) < p.2)).map Prod.fst).take 5

/-- C3: the selector returns at most 5 labels, every returned label comes
from a pair with score strictly above 0.3, the output is a sublist of the
input labels (so descending-score order is preserved), and the spec's
example evaluates to `["science", "education"]`. -/
theorem C3_keyword_selector (pairs : List (String × ℚ))
    (hb : ∀ p ∈ pairs, 0 ≤ p.2 ∧ p.2 ≤ 1)
    (hs : pairs.Pairwise fun a b => b.2 ≤ a.2) :
    (keywordSelect pairs).length ≤ 5 ∧
    (∀ l ∈ keywordSelect pairs, ∃ p ∈ pairs, p.1 = l ∧ (0.3 : ℚ) < p.2) ∧
    List.Sublist (keywordSelect pairs) (pairs.map Prod.fst) ∧
    keywordSelect
        [("science", 0.81), ("education", 0.55), ("history", 0.29), ("business", 0.12)]
      = ["science", "education"] := by
  refine ⟨?_, ?_, ?_, by norm_num [keywordSelect, List.filter]⟩
  · unfold keywordSelect
    rw [List.length_take]
    exact min_le_left _ _
  · intro l hl
    have hl' : l ∈ (pairs.filter fun p => decide ((0.3 : ℚ) < p.2)).map Prod.fst :=
      List.take_subset 5 _ hl
    obtain ⟨p, hpmem, hpl⟩ := List.mem_map.mp hl'
    obtain ⟨hp, hdec⟩ := List.mem_filter.mp hpmem
    exact ⟨p, hp, hpl, of_decide_eq_true hdec⟩
  · exact List.Sublist.trans (List.take_sublist _ _)
      (List.Sublist.map _ (List.filter_sublist _))

/-- Witness for C3 at the spec's example input. -/
theorem C3_keyword_selector_witness :
    keywordSelect
        [("science", 0.81), ("education", 0.55), ("history", 0.29), ("business", 0.12)]
      = ["science", "education"] :=
  (C3_keyword_selector
    [("science", 0.81), ("education", 0.55), ("history", 0.29), ("business", 0.12)]
    (by intro p hp; fin_cases hp <;> norm_num)
    (by norm_num [List.Pairwise])).2.2.2

-- ### Session state and button handlers (src/app.py:481-483, 506-545, 615-649, 674-707, 725-752)

/-- The per-session result store (src/app.py:481-483): keys `summary`,
`quiz`, `translation`, `keywords`, initialised to `""` / `[]`. -/
structure Store where
  summary : String
  quiz : List String
  translation : String
  keywords : List String
deriving DecidableEq

/-- The session state at session start (src/app.py:481-483). -/
def initStore : Store := ⟨"", [], "", []⟩

/-- Outcome of the externally supplied model load plus inference call, as
seen by a button handler: the memoized loader returned `None` (its load
failed), the call raised (caught by the handler's `except`), or it
returned a value. -/
inductive InfOutcome (α : Type) where
  | loadFail
  | exn
  | ok (a : α)

/-- The message kind a handler run ends with. -/
inductive HandlerMsg where
  | emptyInput
  | insufficientInput
  | noSentences
  | noQuestions
  | noKeywords
  | configError
  | loadFailed
  | inferenceError
  | success
deriving DecidableEq

/-- A handler step: the session store afterwards, the message kind, and
whether the Inference Gateway (model load / inference) was reached. -/
structure StepResult where
  store : Store
  msg : HandlerMsg
  invoked : Bool
deriving DecidableEq

/-- The Summarize button handler (src/app.py:506-545): empty-input check,
truncation to 400 words, 20-word minimum, then the memoized summarizer;
`st.session_state["summary"]` is written only on the success path. -/
def sum_btn (store : Store) (text : String) (gw : InfOutcome String) : StepResult :=
  if pyStrip text = "" then ⟨store, .emptyInput, false⟩
  else
    let trunc := (truncate_text text 400).1
    if (pySplit trunc).length < 20 then ⟨store, .insufficientInput, false⟩
    else
      match gw with
      | .loadFail => ⟨store, .loadFailed, true⟩
      | .exn => ⟨store, .inferenceError, true⟩
      | .ok s =>
          ⟨⟨s, store.quiz, store.translation, store.keywords⟩, .success, true⟩

/-- The Quiz button handler (src/app.py:615-649): empty-input check,
truncation to 200 words, sentence tokenization (supplied externally,
`none` modelling a raised-and-caught exception), `[:5]`, the question
comprehension, and a write to `st.session_state["quiz"]` only when the
question list is nonempty. -/
def quiz_btn (store : Store) (text : String) (tok : Option (List String)) :
    StepResult :=
  if pyStrip text = "" then ⟨store, .emptyInput, false⟩
  else
    match tok with
    | none => ⟨store, .inferenceError, false⟩
    | some sents =>
        if (sents.take 5).length = 0 then ⟨store, .noSentences, false⟩
        else
          if quizPrompts sents = [] then ⟨store, .noQuestions, false⟩
          else
            ⟨⟨store.summary, quizPrompts sents, store.translation, store.keywords⟩,
              .success, false⟩

/-- The Translate tab's language-to-model mapping (src/app.py:678-684). -/
def model_map : List (String × String) :=
  [("French", "Helsinki-NLP/opus-mt-en-fr"),
   ("German", "Helsinki-NLP/opus-mt-en-de"),
   ("Spanish", "Helsinki-NLP/opus-mt-en-es"),
   ("Italian", "Helsinki-NLP/opus-mt-en-it"),
   ("Hindi", "Helsinki-NLP/opus-mt-en-hi")]

/-- The Translate button handler (src/app.py:674-707): empty-input check,
`model_map[lang]` lookup (a failed lookup raises `KeyError` inside the
`try`, before `load_translator` is called), then translator load and
inference; `st.session_state["translation"]` is written only on success. -/
def trans_btn (store : Store) (text lang : String) (gw : InfOutcome String) :
    StepResult :=
  if pyStrip text = "" then ⟨store, .emptyInput, false⟩
  else
    match model_map.lookup lang with
    | none => ⟨store, .configError, false⟩
    | some _ =>
        match gw with
        | .loadFail => ⟨store, .loadFailed, true⟩
        | .exn => ⟨store, .inferenceError, true⟩
        | .ok tr =>
            ⟨⟨store.summary, store.quiz, tr, store.keywords⟩, .success, true⟩

/-- The Keywords button handler (src/app.py:725-752): empty-input check,
the memoized classifier (its zipped label/score output supplied
externally), the threshold-and-cap selection, and a write to
`st.session_state["keywords"]` only when the selection is nonempty. -/
def kw_btn (store : Store) (text : String)
    (gw : InfOutcome (List (String × ℚ))) : StepResult :=
  if pyStrip text = "" then ⟨store, .emptyInput, false⟩
  else
    match gw with
    | .loadFail => ⟨store, .loadFailed, true⟩
    | .exn => ⟨store, .inferenceError, true⟩
    | .ok pairs =>
        if keywordSelect pairs = [] then ⟨store, .noKeywords, true⟩
        else
          ⟨⟨store.summary, store.quiz, store.translation, keywordSelect pairs⟩,
            .success, true⟩

-- ### Download tab renderings (src/app.py:757-805)

/-- Quiz download rendering (src/app.py:782):
`"\n\n".join(f"Question {i}: {q}" for i, q in enumerate(quiz, 1))`. -/
def quizRender (qs : List String) : String :=
  joinSep "\n\n" (qs.enum.map fun p => "Question " ++ toString (p.1 + 1) ++ ": " ++ p.2)

/-- Keywords download rendering (src/app.py:794):
`"Extracted Keywords:\n\n" + "\n".join(f"- {kw}" for kw in keywords)`. -/
def keywordsRender (kws : List String) : String :=
  "Extracted Keywords:\n\n" ++ joinSep "\n" (kws.map fun kw => "- " ++ kw)

/-- The Download tab's quiz slot (src/app.py:781-785): a rendered file
only when the stored list is nonempty. -/
def quizExport (store : Store) : Option String :=
  if store.quiz = [] then none else some (quizRender store.quiz)

/-- The Download tab's keywords slot (src/app.py:793-797). -/
def keywordsExport (store : Store) : Option String :=
  if store.keywords = [] then none else some (keywordsRender store.keywords)

-- ### Process-wide model cache (st.cache_resource, src/app.py:55-76, 124-145)

/-- Outcome of one underlying model-load attempt. -/
inductive LoadOutcome where
  | success
  | failure
deriving DecidableEq

/-- The `st.cache_resource` cell for one (capability, language) key.
`entry = none` means the key has no cached entry; `entry = some v` means
the decorated loader's return value `v` is cached — `some (some ())` a
loaded pipeline handle, `some none` the `None` the loader returns after
catching a load exception. `attempts` counts underlying load attempts. -/
structure CacheState where
  entry : Option (Option Unit)
  attempts : Nat
deriving DecidableEq

/-- The cache cell at process start. -/
def initCache : CacheState := ⟨none, 0⟩

/-- One invocation of a memoized loader (`get_summarizer`,
`load_translator`, ...): on a cache hit the cached value is returned
with no load attempt; on a miss the load runs and its result — the
pipeline handle on success, `None` on a caught failure — is cached
either way (`st.cache_resource` caches `None` returns too). -/
def cachedLoad (st : CacheState) (outcome : LoadOutcome) :
    Option Unit × CacheState :=
  match st.entry with
  | some v => (v, st)
  | none =>
      match outcome with
      | .success => (some (), ⟨some (some ()), st.attempts + 1⟩)
      | .failure => (none, ⟨some none, st.attempts + 1⟩)

/-- A sequence of invocations for one key. -/
def runLoads (st : CacheState) : List LoadOutcome → CacheState
  | [] => st
  | o :: os => runLoads (cachedLoad st o).2 os

/-- Once a key holds a cached entry, further invocations never change
the cache cell. -/
theorem runLoads_frozen (st : CacheState) (v : Option Unit)
    (hv : st.entry = some v) : ∀ os, runLoads st os = st := by
  intro os
  induction os with
  | nil => rfl
  | cons o os ih =>
      show runLoads (cachedLoad st o).2 os = st
      have hstep : (cachedLoad st o).2 = st := by
        simp [cachedLoad, hv]
      rw [hstep]
      exact ih

-- ### Helper lemmas about the handlers

/-- Each Summarize run either leaves the store unchanged or succeeds. -/
theorem sum_btn_store_eq_or_success (store : Store) (text : String)
    (gw : InfOutcome String) :
    (sum_btn store text gw).store = store ∨
    (sum_btn store text gw).msg = HandlerMsg.success := by
  unfold sum_btn
  by_cases he : pyStrip text = ""
  · simp [he]
  · by_cases hlt : (pySplit (truncate_text text 400).1).length < 20
    · simp [he, hlt]
    · cases gw <;> simp [he, hlt]

/-- Each Quiz run either leaves the store unchanged or succeeds. -/
theorem quiz_btn_store_eq_or_success (store : Store) (text : String)
    (tok : Option (List String)) :
    (quiz_btn store text tok).store = store ∨
    (quiz_btn store text tok).msg = HandlerMsg.success := by
  unfold quiz_btn
  by_cases he : pyStrip text = ""
  · simp [he]
  · cases tok with
    | none => simp [he]
    | some sents =>
        by_cases h0 : (sents.take 5).length = 0
        · simp [he, h0]
        · have hnil : ¬sents = [] := by
            intro hs
            rw [hs] at h0
            simp at h0
          by_cases hq : quizPrompts sents = [] <;> simp [he, h0, hnil, hq]

/-- Each Translate run either leaves the store unchanged or succeeds. -/
theorem trans_btn_store_eq_or_success (store : Store) (text lang : String)
    (gw : InfOutcome String) :
    (trans_btn store text lang gw).store = store ∨
    (trans_btn store text lang gw).msg = HandlerMsg.success := by
  unfold trans_btn
  by_cases he : pyStrip text = ""
  · simp [he]
  · cases hl : model_map.lookup lang with
    | none => simp [he, hl]
    | some m => cases gw <;> simp [he, hl]

/-- Each Keywords run either leaves the store unchanged or succeeds. -/
theorem kw_btn_store_eq_or_success (store : Store) (text : String)
    (gw : InfOutcome (List (String × ℚ))) :
    (kw_btn store text gw).store = store ∨
    (kw_btn store text gw).msg = HandlerMsg.success := by
  unfold kw_btn
  by_cases he : pyStrip text = ""
  · simp [he]
  · cases gw with
    | loadFail => simp [he]
    | exn => simp [he]
    | ok pairs => by_cases hk : keywordSelect pairs = [] <;> simp [he, hk]

-- ### The claims

/-- C5: when the normalized input holds fewer than 20 words, the
Summarize handler stops with an insufficient-input error (the
empty-input message for all-whitespace input — the same
minimum-content-precondition family — and the 20-word message
otherwise), the store is unchanged, the Inference Gateway is not
reached, and the outcome does not depend on the gateway at all. -/
theorem C5_summarize_precondition (store : Store) (text : String)
    (gw gw' : InfOutcome String)
    (h : (pySplit (truncate_text text 400).1).length < 20) :
    ((sum_btn store text gw).msg = HandlerMsg.emptyInput ∨
      (sum_btn store text gw).msg = HandlerMsg.insufficientInput) ∧
    (sum_btn store text gw).store = store ∧
    (sum_btn store text gw).invoked = false ∧
    sum_btn store text gw = sum_btn store text gw' := by
  unfold sum_btn
  by_cases he : pyStrip text = ""
  · simp [he]
  · simp [he, h]

/-- Witness for C5 at a concrete two-word input. -/
theorem C5_summarize_precondition_witness :
    ((sum_btn initStore "hi there" (InfOutcome.exn : InfOutcome String)).msg
        = HandlerMsg.emptyInput ∨
      (sum_btn initStore "hi there" (InfOutcome.exn : InfOutcome String)).msg
        = HandlerMsg.insufficientInput) ∧
    (sum_btn initStore "hi there" (InfOutcome.exn : InfOutcome String)).store
      = initStore ∧
    (sum_btn initStore "hi there" (InfOutcome.exn : InfOutcome String)).invoked
      = false ∧
    sum_btn initStore "hi there" (InfOutcome.exn : InfOutcome String)
      = sum_btn initStore "hi there" (InfOutcome.ok "x") :=
  C5_summarize_precondition initStore "hi there" InfOutcome.exn (InfOutcome.ok "x")
    (by decide)

/-- C7: the Export Adapter's keywords rendering is a pure function and
for the stored list `["science", "education"]` produces exactly the text
`"Extracted Keywords:\n\n- science\n- education"` (whose UTF-8 encoding
the download link serves). -/
theorem C7_keywords_render :
    keywordsRender ["science", "education"]
      = "Extracted Keywords:\n\n- science\n- education" := by
  rfl

/-- C8: a Translate invocation with nonempty text and a target language
outside {French, German, Spanish, Italian, Hindi} fails at the
`model_map[lang]` lookup — the code's `ConfigurationError` — with no
model load attempted and the store unchanged. -/
theorem C8_unsupported_language (store : Store) (text lang : String)
    (gw : InfOutcome String) (hne : pyStrip text ≠ "")
    (hlang : lang ≠ "French" ∧ lang ≠ "German" ∧ lang ≠ "Spanish" ∧
      lang ≠ "Italian" ∧ lang ≠ "Hindi") :
    (trans_btn store text lang gw).msg = HandlerMsg.configError ∧
    (trans_btn store text lang gw).invoked = false ∧
    (trans_btn store text lang gw).store = store := by
  have hlook : model_map.lookup lang = none := by
    obtain ⟨h1, h2, h3, h4, h5⟩ := hlang
    have b1 : (lang == "French") = false := beq_eq_false_iff_ne.mpr h1
    have b2 : (lang == "German") = false := beq_eq_false_iff_ne.mpr h2
    have b3 : (lang == "Spanish") = false := beq_eq_false_iff_ne.mpr h3
    have b4 : (lang == "Italian") = false := beq_eq_false_iff_ne.mpr h4
    have b5 : (lang == "Hindi") = false := beq_eq_false_iff_ne.mpr h5
    simp [model_map, List.lookup, b1, b2, b3, b4, b5]
  unfold trans_btn
  simp [hne, hlook]

/-- Witness for C8 at the spec's "Klingon" example. -/
theorem C8_unsupported_language_witness :
    (trans_btn initStore "hello" "Klingon"
        (InfOutcome.ok "bonjour")).msg = HandlerMsg.configError ∧
    (trans_btn initStore "hello" "Klingon"
        (InfOutcome.ok "bonjour")).invoked = false ∧
    (trans_btn initStore "hello" "Klingon"
        (InfOutcome.ok "bonjour")).store = initStore :=
  C8_unsupported_language initStore "hello" "Klingon" (InfOutcome.ok "bonjour")
    (by decide) (by decide)

/-- C9: whichever capability handler runs, if the invocation did not end
in success (precondition violation, configuration error, model load
failure, or a raised-and-caught inference exception) then the session
store afterwards is exactly the store before. -/
theorem C9_store_unchanged_on_failure (store : Store) (text lang : String)
    (gwS gwT : InfOutcome String) (tok : Option (List String))
    (gwK : InfOutcome (List (String × ℚ))) :
    ((sum_btn store text gwS).msg ≠ HandlerMsg.success →
      (sum_btn store text gwS).store = store) ∧
    ((quiz_btn store text tok).msg ≠ HandlerMsg.success →
      (quiz_btn store text tok).store = store) ∧
    ((trans_btn store text lang gwT).msg ≠ HandlerMsg.success →
      (trans_btn store text lang gwT).store = store) ∧
    ((kw_btn store text gwK).msg ≠ HandlerMsg.success →
      (kw_btn store text gwK).store = store) :=
  ⟨fun h => (sum_btn_store_eq_or_success store text gwS).resolve_right h,
   fun h => (quiz_btn_store_eq_or_success store text tok).resolve_right h,
   fun h => (trans_btn_store_eq_or_success store text lang gwT).resolve_right h,
   fun h => (kw_btn_store_eq_or_success store text gwK).resolve_right h⟩

/-- Witness for C9: concrete failing invocations of all four handlers
leave the initial store untouched. -/
theorem C9_store_unchanged_on_failure_witness :
    (sum_btn initStore "" (InfOutcome.exn : InfOutcome String)).store
      = initStore ∧
    (quiz_btn initStore "" none).store = initStore ∧
    (trans_btn initStore "" "French" (InfOutcome.exn : InfOutcome String)).store
      = initStore ∧
    (kw_btn initStore ""
        (InfOutcome.exn : InfOutcome (List (String × ℚ)))).store = initStore :=
  let t := C9_store_unchanged_on_failure initStore "" "French"
    InfOutcome.exn InfOutcome.exn none InfOutcome.exn
  ⟨t.1 (by decide), t.2.1 (by decide), t.2.2.1 (by decide), t.2.2.2 (by decide)⟩

/-- C10: a Quiz run whose first five tokenized sentences yield no prompt,
and a Keywords run where every score is at most 0.3, leave the store
entirely unchanged — in particular the previously stored quiz and
keyword lists are retained, and so is what the Download tab exports for
them. -/
theorem C10_empty_results_do_not_overwrite (store : Store) (text : String)
    (sents : List String) (pairs : List (String × ℚ))
    (hq : (sents.take 5).filter (fun s => decide (10 < s.length)) = [])
    (hk : ∀ p ∈ pairs, p.2 ≤ (0.3 : ℚ)) :
    (quiz_btn store text (some sents)).store = store ∧
    (kw_btn store text (InfOutcome.ok pairs)).store = store ∧
    quizExport (quiz_btn store text (some sents)).store = quizExport store ∧
    keywordsExport (kw_btn store text (InfOutcome.ok pairs)).store
      = keywordsExport store := by
  have hq' : quizPrompts sents = [] := by
    unfold quizPrompts
    rw [hq]
    rfl
  have hk' : keywordSelect pairs = [] := by
    unfold keywordSelect
    have hfil : (pairs.filter fun p => decide ((0.3 : ℚ) < p.2)) = [] := by
      rw [List.filter_eq_nil_iff]
      intro p hp
      simpa using not_lt.mpr (hk p hp)
    rw [hfil]
    rfl
  have h1 : (quiz_btn store text (some sents)).store = store := by
    unfold quiz_btn
    by_cases he : pyStrip text = ""
    · simp [he]
    · by_cases h0 : (sents.take 5).length = 0
      · simp [he, h0]
      · have hnil : ¬sents = [] := by
          intro hs
          rw [hs] at h0
          simp at h0
        simp [he, h0, hnil, hq']
  have h2 : (kw_btn store text (InfOutcome.ok pairs)).store = store := by
    unfold kw_btn
    by_cases he : pyStrip text = ""
    · simp [he]
    · simp [he, hk']
  exact ⟨h1, h2, by rw [h1], by rw [h2]⟩

/-- Witness for C10: a stored nonempty quiz and keyword list survive an
empty quiz result and an all-low-score keyword result. -/
theorem C10_empty_results_do_not_overwrite_witness :
    (quiz_btn ⟨"s", ["Question 1: q"], "t", ["science"]⟩ "hi"
        (some ["short"])).store = ⟨"s", ["Question 1: q"], "t", ["science"]⟩ ∧
    (kw_btn ⟨"s", ["Question 1: q"], "t", ["science"]⟩ "hi"
        (InfOutcome.ok [("history", (0.29 : ℚ))])).store
      = ⟨"s", ["Question 1: q"], "t", ["science"]⟩ :=
  let t := C10_empty_results_do_not_overwrite
    ⟨"s", ["Question 1: q"], "t", ["science"]⟩ "hi" ["short"]
    [("history", (0.29 : ℚ))] (by decide)
    (by intro p hp; fin_cases hp; norm_num)
  ⟨t.1, t.2.1⟩

/-- C4 counterexample: after a failed load the cache does hold an entry
for the key (the cached `None`), and a following invocation for the same
key returns that `None` without re-attempting the load — the claimed
no-poison retry behaviour is absent (recovery needs the manual
"Clear Model Cache" button, src/app.py:444-448). -/
theorem C4_counterexample :
    (runLoads initCache [LoadOutcome.failure]).entry ≠ none ∧
    (runLoads initCache [LoadOutcome.failure, LoadOutcome.success]).attempts
      = 1 ∧
    (cachedLoad (runLoads initCache [LoadOutcome.failure])
      LoadOutcome.success).1 = none := by
  decide

/-- C4 amended: per (capability, language) key, the underlying model load
runs at most once per process across any sequence of invocations
regardless of outcomes; after a failed first load the cache permanently
holds the loader's `None`, and every later invocation returns that
`None` without re-attempting the load. -/
theorem C4_cache_once_and_poison (outs : List LoadOutcome)
    (nxt : LoadOutcome) :
    (runLoads initCache outs).attempts ≤ 1 ∧
    (outs.head? = some LoadOutcome.failure →
      (runLoads initCache outs).entry = some none ∧
      cachedLoad (runLoads initCache outs) nxt
        = (none, runLoads initCache outs)) := by
  cases outs with
  | nil =>
      constructor
      · show (initCache).attempts ≤ 1
        decide
      · intro hh
        simp at hh
  | cons o os =>
      cases o with
      | success =>
          have h1 : (cachedLoad initCache LoadOutcome.success).2
              = ⟨some (some ()), 1⟩ := rfl
          have h2 : runLoads ⟨some (some ()), 1⟩ os = ⟨some (some ()), 1⟩ :=
            runLoads_frozen _ (some ()) rfl os
          have hall : runLoads initCache (LoadOutcome.success :: os)
              = ⟨some (some ()), 1⟩ := by
            show runLoads (cachedLoad initCache LoadOutcome.success).2 os = _
            rw [h1, h2]
          constructor
          · rw [hall]
          · intro hh
            simp at hh
      | failure =>
          have h1 : (cachedLoad initCache LoadOutcome.failure).2
              = ⟨some none, 1⟩ := rfl
          have h2 : runLoads ⟨some none, 1⟩ os = ⟨some none, 1⟩ :=
            runLoads_frozen _ none rfl os
          have hall : runLoads initCache (LoadOutcome.failure :: os)
              = ⟨some none, 1⟩ := by
            show runLoads (cachedLoad initCache LoadOutcome.failure).2 os = _
            rw [h1, h2]
          refine ⟨?_, fun _ => ⟨?_, ?_⟩⟩
          · rw [hall]
          · rw [hall]
          · rw [hall]
            rfl

/-- Witness for C4's amended statement at a single failing invocation. -/
theorem C4_cache_once_and_poison_witness :
    (runLoads initCache [LoadOutcome.failure]).attempts ≤ 1 ∧
    (runLoads initCache [LoadOutcome.failure]).entry = some none :=
  let t := C4_cache_once_and_poison [LoadOutcome.failure] LoadOutcome.success
  ⟨t.1, (t.2 rfl).1⟩
